import Mathlib

/-!
Verification development for the Obsidian context-fetcher plugin
(`semantic-search/context-fetcher-plugin`).  The TypeScript sources are
shallowly embedded: the pure result-mapping logic becomes Lean functions,
the asynchronous subprocess bridge becomes a pure function of the observed
process events (exit code, captured stdout/stderr, parse outcome), and the
stateful UI/settings flows become explicit state-passing functions.
-/

namespace ContextFetcher

/-! ## Generic string helpers (JS string primitives used by the plugin) -/

/-- Boolean check that the first list is an initial segment of the second. -/
def leadsWith : List Char → List Char → Bool
  | [], _ => true
  | _ :: _, [] => false
  | a :: as, b :: bs => a == b && leadsWith as bs

/-- Boolean check that `needle` occurs as a contiguous run inside `hay`
(the semantics of JavaScript `String.prototype.includes`). -/
def includesB (needle : List Char) : List Char → Bool
  | [] => leadsWith needle []
  | c :: rest => leadsWith needle (c :: rest) || includesB needle rest

/-- Remove the first occurrence of `pat` from the list, scanning left to
right; the semantics of JavaScript `s.replace(pat, '')` where `pat` is a
plain (non-regexp, nonempty) string. -/
def dropFirstMatch (pat : List Char) : List Char → List Char
  | [] => []
  | c :: rest =>
    if leadsWith pat (c :: rest) then (c :: rest).drop pat.length
    else c :: dropFirstMatch pat rest

/-- The semantics of JavaScript `s.substring(0, n)`: the first `n`
characters of `s`, or all of `s` when it is shorter. -/
def jsSubstring (s : String) (n : Nat) : String :=
  String.mk (s.toList.take n)

/-- Digits-after-the-point rendering of a nonnegative integer number of
hundredths, e.g. `105 ↦ "1.05"`. -/
def hundredthsToString (n : Nat) : String :=
  toString (n / 100) ++ "." ++ (if n % 100 < 10 then "0" else "") ++ toString (n % 100)

/-- `⌊100 * q + 1 / 2⌋` computed on the numerator and denominator with
flooring integer division: the number of hundredths in `q` rounded to the
nearest integer, ties upward. -/
def roundHundredths (q : ℚ) : Int :=
  Int.fdiv (200 * q.num + (q.den : Int)) (2 * (q.den : Int))

/-- The semantics of JavaScript `x.toFixed(2)`: round to the nearest
hundredth (ties away from zero on the magnitude) and print with exactly
two digits after the point. -/
def toFixed2 (q : ℚ) : String :=
  if q < 0 then "-" ++ hundredthsToString (Int.toNat (roundHundredths (-q)))
  else hundredthsToString (Int.toNat (roundHundredths q))

/-! ## Data model (`services/ContextFetcherService.ts`, `services/ChromaDBService.ts`) -/

/-- The metadata record attached to one ChromaDB result row.  Each field is
optional because the row's metadata object may lack it (`metadata.relative_path`,
`metadata.filename`, `metadata.heading` may each be `undefined`). -/
structure Metadata where
  relative_path : Option String
  filename : Option String
  heading : Option String
deriving DecidableEq

/-- The `metadata || {}` default used when a row has no metadata record. -/
def emptyMetadata : Metadata := ⟨none, none, none⟩

/-- `ContextItem` from `ContextFetcherService.ts`.  The TS `type` field is a
union of string literals; it is modelled as a plain string (the mapper only
ever produces `"reference"`). -/
structure ContextItem where
  type : String
  note : String
  anchor : String
  excerpt : String
  reason : String
deriving DecidableEq

/-- The raw nearest-neighbor response consumed by `processChromaResults`:
column-major parallel arrays with one outer array per submitted query.
`none` models an absent (`undefined`) field; an inner `Option ℚ` distance
models a missing (`undefined`) entry. -/
structure ChromaResults where
  documents : Option (List (List String))
  metadatas : Option (List (List Metadata))
  distances : Option (List (List (Option ℚ)))
deriving DecidableEq

/-! ## Result mapper (`ChromaDBService.processChromaResults`) -/

/-- Path normalization from `processChromaResults`:
`path.replace(/\\/g, '/').toLowerCase()` — every backslash becomes a
forward slash, then the string is lower-cased character by character. -/
def normalizeNotePath (path : String) : String :=
  String.mk ((path.toList.map fun c => if c = '\x5c' then '/' else c).map Char.toLower)

/-- `distances[i] || 1`: a missing entry (out of range or `undefined`) and
a zero distance are both replaced by the default `1`. -/
def lookupDistance (distances : List (Option ℚ)) (i : Nat) : ℚ :=
  match distances.getD i none with
  | none => 1
  | some d => if d = 0 then 1 else d

/-- The body of the `processChromaResults` loop for one result row: builds
the `ContextItem` pushed for that row (title from `filename` with the first
`'.md'` occurrence removed and `'Unknown'` as the falsy default, excerpt
`document.substring(0, 240)`, anchor from `heading` when truthy, reason
`Distance: ${distance.toFixed(2)}`). -/
def mkContextItem (document : String) (metadata : Metadata) (distance : ℚ) : ContextItem :=
  { type := "reference"
    note :=
      match metadata.filename with
      | none => "Unknown"
      | some f =>
        if String.mk (dropFirstMatch ".md".toList f.toList) = "" then "Unknown"
        else String.mk (dropFirstMatch ".md".toList f.toList)
    anchor :=
      match metadata.heading with
      | none => ""
      | some h => if h = "" then "" else "#" ++ h
    excerpt := jsSubstring document 240
    reason := "Distance: " ++ toFixed2 distance }

/-- `processChromaResults(results, currentNotePath)`: guard for a missing or
empty `documents[0]`, then iterate the rows, skipping any row whose
normalized `relative_path` equals the normalized current-note path
(an absent `relative_path` normalizes to `undefined` and never compares
equal to the always-defined normalized current path). -/
def processChromaResults (results : ChromaResults) (currentNotePath : String) :
    List ContextItem :=
  match results.documents.bind List.head? with
  | none => []
  | some documents =>
    if documents.length = 0 then []
    else
      (List.range documents.length).filterMap fun i =>
        if (((results.metadatas.bind List.head?).getD []).getD i emptyMetadata).relative_path.map
              normalizeNotePath = some (normalizeNotePath currentNotePath)
        then none
        else some (mkContextItem (documents.getD i "")
          (((results.metadatas.bind List.head?).getD []).getD i emptyMetadata)
          (lookupDistance ((results.distances.bind List.head?).getD []) i))

/-! ## Subprocess bridge (`runPythonScript` / `runPythonScriptWithArgs`)

The bridge is asynchronous in the source; its decision logic lives in the
`close` handler, which sees the exit code (`null` when the process was
killed by a signal) and the accumulated stdout/stderr text.  JSON parsing
(`JSON.parse`) is a host primitive, so it is abstracted as a parameter
`jsonParse`; likewise the truthiness of the parsed document's `success`
field (`isSuccess`) and its `error` field rendered as a message
(`errorField`). -/

/-- Settlement of the promise returned by a bridge invocation. -/
inductive BridgeOutcome (α : Type) where
  | reject (message : String)
  | resolve (response : α)
deriving DecidableEq

/-- Rendering of the nullable exit code inside a template literal. -/
def exitCodeText : Option Int → String
  | none => "null"
  | some c => toString c

/-- The `close` handler of `runPythonScript` (stdin-JSON variant), lines
82–105: nonzero exit rejects with the captured stderr; then stdout is
parsed, a parse failure rejects with a message embedding the raw stdout,
and a falsy `success` field rejects with the document's `error` field. -/
def handleCloseStdin {α : Type} (jsonParse : String → Except String α)
    (isSuccess : α → Bool) (errorField : α → String)
    (code : Option Int) (stdout stderr : String) : BridgeOutcome α :=
  if code ≠ some 0 then
    .reject ("Python process exited with code " ++ exitCodeText code ++ ": " ++ stderr)
  else
    match jsonParse stdout with
    | .error e =>
      .reject ("Failed to parse Python response: " ++ e ++ ". Raw stdout: " ++ stdout)
    | .ok response =>
      if isSuccess response then .resolve response
      else .reject (errorField response)

/-- The `close` handler of `runPythonScriptWithArgs` (argument-list
variant), lines 176–204: identical to the stdin variant (the duplicated
exit-code check in the source is redundant) except that the parse-failure
message also embeds the raw stderr. -/
def handleCloseArgs {α : Type} (jsonParse : String → Except String α)
    (isSuccess : α → Bool) (errorField : α → String)
    (code : Option Int) (stdout stderr : String) : BridgeOutcome α :=
  if code ≠ some 0 then
    .reject ("Python process exited with code " ++ exitCodeText code ++ ": " ++ stderr)
  else
    match jsonParse stdout with
    | .error e =>
      .reject ("Failed to parse Python response: " ++ e ++ ". Raw stdout: " ++ stdout
        ++ ". Raw stderr: " ++ stderr)
    | .ok response =>
      if isSuccess response then .resolve response
      else .reject (errorField response)

/-! ## Embedding generation (`ChromaDBService.generateEmbedding`) -/

/-- The JavaScript value of the `embeddings` field of a successful
`generate_embedding.py` response: absent (`undefined`), present but not an
array (including falsy non-array values — every such case fails the
`response.embeddings && Array.isArray(response.embeddings)` guard), or an
array of embedding vectors. -/
inductive EmbeddingsField where
  | absent
  | nonArrayValue
  | array (rows : List (List ℚ))
deriving DecidableEq

/-- A successful bridge response to the `embed` action, as far as
`generateEmbedding` inspects it. -/
structure EmbedResponse where
  embeddings : EmbeddingsField
deriving DecidableEq

/-- `generateEmbedding`, lines 450–463, as a function of the bridge
outcome: a rejected bridge call propagates; a fulfilled response yields
`embeddings[0]` when `embeddings` is a nonempty array and otherwise throws
the fixed validation error. -/
def generateEmbedding (bridgeOutcome : Except String EmbedResponse) :
    Except String (List ℚ) :=
  match bridgeOutcome with
  | .error e => .error e
  | .ok response =>
    match response.embeddings with
    | .array (first :: _) => .ok first
    | _ => .error "Failed to generate embeddings or received empty embeddings."

/-! ## Query workflows and UI state
(`ChromaDBService.fetchContextForNote`, `ContextFetcherService.fetchContext`,
`ContextFetcherService.searchQuery`) -/

/-- The view state the two callbacks `setLoading`/`updateContext` mutate:
the displayed context-item list and the loading flag. -/
structure UIState where
  items : List ContextItem
  loading : Bool
deriving DecidableEq

/-- `fetchContextForNote`, lines 326–348, as a function of the outcome of
its fallible prefix (reading the note and `searchSimilarContent`, i.e. the
embed and query subprocess calls): on success the raw results are mapped
with the note's path for self-exclusion; the `catch` block shows a notice
and returns the empty list. -/
def fetchContextForNote (searchOutcome : Except String ChromaResults)
    (notePath : String) : List ContextItem :=
  match searchOutcome with
  | .ok results => processChromaResults results notePath
  | .error _ => []

/-- `ContextFetcherService.fetchContext`, lines 41–55, as a state
transformer on the view state: `setLoading(true)`, then
`updateContext(await fetchContextForNote(...))` — which never throws, so
the `catch` branch is unreachable — then `setLoading(false)` in the
`finally` block. -/
def fetchContext (_state : UIState) (searchOutcome : Except String ChromaResults)
    (notePath : String) : UIState :=
  { items := fetchContextForNote searchOutcome notePath, loading := false }

/-- `ContextFetcherService.searchQuery`, lines 161–174, as a state
transformer: on success of `searchSimilarContent` the results are mapped
with the empty current path and displayed; on failure the `catch` block
only shows a notice, leaving `state.items` untouched, and the `finally`
block clears the loading flag. -/
def searchQuery (state : UIState) (searchOutcome : Except String ChromaResults) :
    UIState :=
  match searchOutcome with
  | .ok results => { items := processChromaResults results "", loading := false }
  | .error _ => { state with loading := false }

/-! ## Reindex-all workflow (`main.ts`) -/

/-- The persisted fields `reindexAllNotes` can touch. -/
structure PluginSettings where
  totalDocuments : Nat
  lastIndexedDate : Nat
deriving DecidableEq

/-- One externally visible step of the reindex-all workflow. -/
inductive ReindexStep where
  | clearStep
  | indexStep
  | countRefreshStep
deriving DecidableEq

/-- `ContextFetcherService.getDocumentsCount` composed with
`ChromaDBService.getDocumentsCount`: the bridge response's
`total_documents || 0` on success (`none` models an absent field), and the
service-level `catch` turning any failure into `0`. -/
def getDocumentsCountResult (bridgeOutcome : Except String (Option Nat)) : Nat :=
  match bridgeOutcome with
  | .error _ => 0
  | .ok total => total.getD 0

/-- `updateTotalDocumentsSetting`, lines 170–180: store the refreshed
count and stamp `Date.now()` (passed in as `now`), then persist. -/
def updateTotalDocumentsSetting (countBridge : Except String (Option Nat))
    (now : Nat) : PluginSettings :=
  { totalDocuments := getDocumentsCountResult countBridge, lastIndexedDate := now }

/-- `reindexAllNotes`, lines 186–198, as a function of the outcomes of its
three awaited steps, returning the final persisted settings and the list
of steps that actually executed, in execution order.  `clearAllIndexes`
and `indexAllFolders` rethrow their failures, so a failure jumps to the
`catch` block and the later steps never run; `updateTotalDocumentsSetting`
never throws. -/
def reindexAllNotes (settings : PluginSettings)
    (clearOutcome indexOutcome : Except String Unit)
    (countBridge : Except String (Option Nat)) (now : Nat) :
    PluginSettings × List ReindexStep :=
  match clearOutcome with
  | .error _ => (settings, [.clearStep])
  | .ok _ =>
    match indexOutcome with
    | .error _ => (settings, [.clearStep, .indexStep])
    | .ok _ =>
      (updateTotalDocumentsSetting countBridge now,
        [.clearStep, .indexStep, .countRefreshStep])

/-! ## Free-text search entry point (`ContextFetcherView.ts`, search button) -/

/-- The semantics of JavaScript `s.trim()`: leading and trailing
whitespace removed. -/
def jsTrim (s : String) : String :=
  String.mk (((s.toList.dropWhile Char.isWhitespace).reverse.dropWhile
    Char.isWhitespace).reverse)

/-- What the search-button click handler decides to do. -/
inductive SearchAction where
  | notifyUser (message : String)
  | runSearch (query : String)
deriving DecidableEq

/-- The search-button click handler, `ContextFetcherView.onOpen` lines
173–181: trim the input; a truthy (nonempty) trimmed query starts the
search, otherwise a notice is shown and nothing else happens. -/
def onSearchClick (inputValue : String) : SearchAction :=
  if jsTrim inputValue = "" then .notifyUser "Please enter a search query."
  else .runSearch (jsTrim inputValue)

/-- The Python scripts spawned on behalf of one search action:
`searchQuery → searchSimilarContent` first runs `generate_embedding.py`,
and only if that embedding call succeeds runs `chroma_query.py`; a notice
spawns nothing. -/
def searchSubprocessScripts (action : SearchAction)
    (embedOutcome : Except String (List ℚ)) : List String :=
  match action with
  | .notifyUser _ => []
  | .runSearch _ =>
    match embedOutcome with
    | .error _ => ["generate_embedding.py"]
    | .ok _ => ["generate_embedding.py", "chroma_query.py"]

/-! ## Helper lemmas -/

theorem leadsWith_self_append (s t : List Char) : leadsWith s (s ++ t) = true := by
  induction s with
  | nil => rfl
  | cons c cs ih => simp [leadsWith, ih]

theorem includesB_of_leadsWith (n l : List Char) (h : leadsWith n l = true) :
    includesB n l = true := by
  cases l with
  | nil =>
    cases n with
    | nil => rfl
    | cons a as => simp [leadsWith] at h
  | cons c rest => simp [includesB, h]

theorem includesB_self_append (n t : List Char) : includesB n (n ++ t) = true :=
  includesB_of_leadsWith n (n ++ t) (leadsWith_self_append n t)

theorem includesB_append_left (n pre l : List Char) (h : includesB n l = true) :
    includesB n (pre ++ l) = true := by
  induction pre with
  | nil => simpa using h
  | cons c cs ih => simp [includesB, ih]

/-- `needle` occurs in `pre ++ needle ++ post`. -/
theorem includesB_surround (n pre post : List Char) :
    includesB n (pre ++ n ++ post) = true := by
  have h := includesB_append_left n pre (n ++ post) (includesB_self_append n post)
  simpa [List.append_assoc] using h

theorem string_toList_append (a b : String) : (a ++ b).toList = a.toList ++ b.toList := rfl

theorem string_toList_mk (l : List Char) : (String.mk l).toList = l := rfl

theorem string_mk_toList (s : String) : String.mk s.toList = s := rfl

/-- Membership characterization for the result mapper: every produced item
arises from a result-row index whose normalized `relative_path` differs
from the normalized current-note path, and is exactly the item the loop
body builds from that row. -/
theorem mem_processChromaResults
    (results : ChromaResults) (currentNotePath : String) (item : ContextItem)
    (h : item ∈ processChromaResults results currentNotePath) :
    ∃ documents, results.documents.bind List.head? = some documents ∧
      ∃ i, i < documents.length ∧
        (((results.metadatas.bind List.head?).getD []).getD i emptyMetadata).relative_path.map
            normalizeNotePath ≠ some (normalizeNotePath currentNotePath) ∧
        item = mkContextItem (documents.getD i "")
          (((results.metadatas.bind List.head?).getD []).getD i emptyMetadata)
          (lookupDistance ((results.distances.bind List.head?).getD []) i) := by
  unfold processChromaResults at h
  split at h
  · simp at h
  · rename_i documents hdoc
    split at h
    · simp at h
    · rename_i hlen
      simp only [List.mem_filterMap, List.mem_range] at h
      obtain ⟨i, hi, hfi⟩ := h
      refine ⟨documents, hdoc, i, hi, ?_⟩
      split at hfi
      · exact absurd hfi (by simp)
      · rename_i hskip
        exact ⟨hskip, (Option.some.inj hfi).symm⟩

/-! ## Claim theorems -/

/-- C1: for every nearest-neighbor response and every current-note path,
every item in the list returned by `processChromaResults` is built from a
result row whose `relative_path` metadata, after normalization (backslashes
to forward slashes, lower-cased), differs from the normalized current-note
path — so the list contains no item built from a row whose normalized path
equals the normalized current path, whatever separator style or letter
case either path uses. -/
theorem processChromaResults_excludes_current_note
    (results : ChromaResults) (currentNotePath : String) (item : ContextItem)
    (h : item ∈ processChromaResults results currentNotePath) :
    ∃ documents i, results.documents.bind List.head? = some documents ∧
      i < documents.length ∧
      item = mkContextItem (documents.getD i "")
        (((results.metadatas.bind List.head?).getD []).getD i emptyMetadata)
        (lookupDistance ((results.distances.bind List.head?).getD []) i) ∧
      (((results.metadatas.bind List.head?).getD []).getD i emptyMetadata).relative_path.map
          normalizeNotePath ≠ some (normalizeNotePath currentNotePath) := by
  obtain ⟨documents, hdoc, i, hi, hne, heq⟩ :=
    mem_processChromaResults results currentNotePath item h
  exact ⟨documents, i, hdoc, hi, heq, hne⟩

/-- A two-row response whose first row is the currently open note written
with a backslash and upper-case letters. -/
def sampleResultsWithSelf : ChromaResults :=
  ⟨some [["docA", "docB"]],
   some [[⟨some "Dir\x5cSelf.md", some "Self.md", none⟩,
          ⟨some "other/note.md", some "note.md", none⟩]],
   some [[some 2, some 3]]⟩

/-- The item the mapper builds from the second (non-self) row of
`sampleResultsWithSelf`. -/
def sampleKeptItem : ContextItem :=
  mkContextItem "docB" ⟨some "other/note.md", some "note.md", none⟩ 3

theorem processChromaResults_excludes_current_note_witness :
    ∃ documents i, sampleResultsWithSelf.documents.bind List.head? = some documents ∧
      i < documents.length ∧
      sampleKeptItem = mkContextItem (documents.getD i "")
        (((sampleResultsWithSelf.metadatas.bind List.head?).getD []).getD i emptyMetadata)
        (lookupDistance ((sampleResultsWithSelf.distances.bind List.head?).getD []) i) ∧
      (((sampleResultsWithSelf.metadatas.bind List.head?).getD []).getD i
          emptyMetadata).relative_path.map normalizeNotePath
        ≠ some (normalizeNotePath "dir/self.MD") :=
  processChromaResults_excludes_current_note sampleResultsWithSelf "dir/self.MD"
    sampleKeptItem (by decide)

/-- C2: for every result row, the excerpt of the produced `ContextItem` is
the first 240 characters of the row's document text — the full document
when it has at most 240 characters, exactly 240 characters otherwise —
and hence every excerpt in a mapped result list has length at most 240. -/
theorem contextItem_excerpt_bound :
    (∀ (document : String) (metadata : Metadata) (distance : ℚ),
      (mkContextItem document metadata distance).excerpt.toList = document.toList.take 240 ∧
      (document.toList.length ≤ 240 →
        (mkContextItem document metadata distance).excerpt = document) ∧
      (240 < document.toList.length →
        (mkContextItem document metadata distance).excerpt.toList.length = 240)) ∧
    (∀ (results : ChromaResults) (currentNotePath : String) (item : ContextItem),
      item ∈ processChromaResults results currentNotePath →
        item.excerpt.toList.length ≤ 240) := by
  constructor
  · intro document metadata distance
    refine ⟨rfl, ?_, ?_⟩
    · intro hle
      show String.mk (document.toList.take 240) = document
      rw [List.take_of_length_le hle, string_mk_toList]
    · intro hlt
      show (String.mk (document.toList.take 240)).toList.length = 240
      simp only [string_toList_mk, List.length_take]
      omega
  · intro results currentNotePath item h
    obtain ⟨documents, hdoc, i, hi, hne, heq⟩ :=
      mem_processChromaResults results currentNotePath item h
    rw [heq]
    show (String.mk ((documents.getD i "").toList.take 240)).toList.length ≤ 240
    simp only [string_toList_mk, List.length_take]
    omega

set_option maxRecDepth 4000 in
theorem contextItem_excerpt_bound_witness :
    (mkContextItem "tiny document" emptyMetadata 2).excerpt = "tiny document" ∧
    (mkContextItem (String.mk (List.replicate 241 'a')) emptyMetadata 2).excerpt.toList.length
      = 240 ∧
    sampleKeptItem.excerpt.toList.length ≤ 240 :=
  ⟨(contextItem_excerpt_bound.1 "tiny document" emptyMetadata 2).2.1 (by decide),
   (contextItem_excerpt_bound.1 (String.mk (List.replicate 241 'a')) emptyMetadata 2).2.2
     (by decide),
   contextItem_excerpt_bound.2 sampleResultsWithSelf "dir/self.MD" sampleKeptItem (by decide)⟩

/-- C9: whenever a result row's distance entry is missing or exactly `0`,
the mapper substitutes the default distance `1` before formatting, so the
produced item's reason string is `"Distance: 1.00"` — in particular an
exact-match row with distance `0` is reported as `1.00`, not `0.00`. -/
theorem missing_or_zero_distance_reason
    (document : String) (metadata : Metadata)
    (distances : List (Option ℚ)) (i : Nat)
    (h : distances.getD i none = none ∨ distances.getD i none = some 0) :
    (mkContextItem document metadata (lookupDistance distances i)).reason
      = "Distance: 1.00" := by
  have h1 : lookupDistance distances i = 1 := by
    unfold lookupDistance
    unfold List.getD at h
    rw [List.get?_eq_getElem?] at h
    rcases h with h | h <;> simp [h]
  show "Distance: " ++ toFixed2 (lookupDistance distances i) = "Distance: 1.00"
  rw [h1]
  decide

theorem missing_or_zero_distance_reason_witness :
    (mkContextItem "doc" emptyMetadata (lookupDistance [some 0] 0)).reason
      = "Distance: 1.00" :=
  missing_or_zero_distance_reason "doc" emptyMetadata [some 0] 0 (Or.inr rfl)

theorem handleCloseStdin_eq_of_nonzero {α : Type}
    (jsonParse : String → Except String α) (isSuccess : α → Bool)
    (errorField : α → String) (code : Option Int) (stdout stderr : String)
    (h : code ≠ some 0) :
    handleCloseStdin jsonParse isSuccess errorField code stdout stderr
      = BridgeOutcome.reject
          ("Python process exited with code " ++ exitCodeText code ++ ": " ++ stderr) := by
  unfold handleCloseStdin
  rw [if_pos h]

theorem handleCloseArgs_eq_of_nonzero {α : Type}
    (jsonParse : String → Except String α) (isSuccess : α → Bool)
    (errorField : α → String) (code : Option Int) (stdout stderr : String)
    (h : code ≠ some 0) :
    handleCloseArgs jsonParse isSuccess errorField code stdout stderr
      = BridgeOutcome.reject
          ("Python process exited with code " ++ exitCodeText code ++ ": " ++ stderr) := by
  unfold handleCloseArgs
  rw [if_pos h]

/-- C3: for both bridge variants, a nonzero (or null) exit code makes the
invocation reject and never resolve with a response payload — for every
possible parse behavior, including a stdout that parses to a well-formed
success document. -/
theorem nonzero_exit_always_rejects {α : Type}
    (jsonParse : String → Except String α) (isSuccess : α → Bool)
    (errorField : α → String) (code : Option Int) (stdout stderr : String)
    (h : code ≠ some 0) :
    (∃ m, handleCloseStdin jsonParse isSuccess errorField code stdout stderr
        = BridgeOutcome.reject m) ∧
    (∀ r, handleCloseStdin jsonParse isSuccess errorField code stdout stderr
        ≠ BridgeOutcome.resolve r) ∧
    (∃ m, handleCloseArgs jsonParse isSuccess errorField code stdout stderr
        = BridgeOutcome.reject m) ∧
    (∀ r, handleCloseArgs jsonParse isSuccess errorField code stdout stderr
        ≠ BridgeOutcome.resolve r) := by
  have hs := handleCloseStdin_eq_of_nonzero jsonParse isSuccess errorField code stdout stderr h
  have ha := handleCloseArgs_eq_of_nonzero jsonParse isSuccess errorField code stdout stderr h
  refine ⟨⟨_, hs⟩, fun r hr => ?_, ⟨_, ha⟩, fun r hr => ?_⟩
  · rw [hs] at hr
    exact BridgeOutcome.noConfusion hr
  · rw [ha] at hr
    exact BridgeOutcome.noConfusion hr

/-- Witness at exit code 1 with a stdout that would parse as a success
document carrying payload `true`. -/
theorem nonzero_exit_always_rejects_witness :
    (∃ m, handleCloseStdin (fun _ => Except.ok true) (fun b => b) (fun _ => "")
        (some 1) "\x7b\x22success\x22: true\x7d" "warning" = BridgeOutcome.reject m) ∧
    (∀ r, handleCloseStdin (fun _ => Except.ok true) (fun b => b) (fun _ => "")
        (some 1) "\x7b\x22success\x22: true\x7d" "warning" ≠ BridgeOutcome.resolve r) ∧
    (∃ m, handleCloseArgs (fun _ => Except.ok true) (fun b => b) (fun _ => "")
        (some 1) "\x7b\x22success\x22: true\x7d" "warning" = BridgeOutcome.reject m) ∧
    (∀ r, handleCloseArgs (fun _ => Except.ok true) (fun b => b) (fun _ => "")
        (some 1) "\x7b\x22success\x22: true\x7d" "warning" ≠ BridgeOutcome.resolve r) :=
  nonzero_exit_always_rejects (fun _ => Except.ok true) (fun b => b) (fun _ => "")
    (some 1) "\x7b\x22success\x22: true\x7d" "warning" (by decide)

/-- C4 counterexample: the claim "for every invocation, unparseable stdout
means the invocation fails with a parse error whose message includes the
raw captured output" is false when the exit code is nonzero: there the
invocation rejects with the exit-code message, which does not contain the
captured stdout.  Concretely, with stdout `"garbage"`, a parse function
that fails on it, and exit code 1, no rejection message containing
`"garbage"` is produced. -/
theorem parse_failure_message_counterexample :
    ((fun _ => Except.error "SyntaxError" : String → Except String Unit) "garbage"
        = Except.error "SyntaxError") ∧
    ¬ ∃ m, handleCloseStdin
        (fun _ => Except.error "SyntaxError" : String → Except String Unit)
        (fun _ => true) (fun _ => "") (some 1) "garbage" "" = BridgeOutcome.reject m ∧
        includesB "garbage".toList m.toList = true := by
  refine ⟨rfl, ?_⟩
  rintro ⟨m, hm, hinc⟩
  have heq : handleCloseStdin
      (fun _ => Except.error "SyntaxError" : String → Except String Unit)
      (fun _ => true) (fun _ => "") (some 1) "garbage" ""
      = BridgeOutcome.reject "Python process exited with code 1: " :=
    handleCloseStdin_eq_of_nonzero _ _ _ _ _ _ (by decide)
  rw [heq] at hm
  injection hm with hm'
  rw [← hm'] at hinc
  exact absurd hinc (by decide)

/-- C4 (amended): when the exit code is zero and the captured stdout is not
parseable as a JSON document, both bridge variants reject with a message
that contains the raw captured stdout, and never resolve with a result
payload; a nonzero exit instead rejects with the exit-code message. -/
theorem parse_failure_rejects_with_raw_output {α : Type}
    (jsonParse : String → Except String α) (isSuccess : α → Bool)
    (errorField : α → String) (stdout stderr e : String)
    (h : jsonParse stdout = Except.error e) :
    (∃ m, handleCloseStdin jsonParse isSuccess errorField (some 0) stdout stderr
        = BridgeOutcome.reject m ∧ includesB stdout.toList m.toList = true) ∧
    (∀ r, handleCloseStdin jsonParse isSuccess errorField (some 0) stdout stderr
        ≠ BridgeOutcome.resolve r) ∧
    (∃ m, handleCloseArgs jsonParse isSuccess errorField (some 0) stdout stderr
        = BridgeOutcome.reject m ∧ includesB stdout.toList m.toList = true) ∧
    (∀ r, handleCloseArgs jsonParse isSuccess errorField (some 0) stdout stderr
        ≠ BridgeOutcome.resolve r) := by
  unfold handleCloseStdin handleCloseArgs
  rw [if_neg (by simp), if_neg (by simp), h]
  refine ⟨⟨_, rfl, ?_⟩, fun r hr => by simp at hr, ⟨_, rfl, ?_⟩, fun r hr => by simp at hr⟩
  · have hsplit :
        ("Failed to parse Python response: " ++ e ++ ". Raw stdout: " ++ stdout).toList
          = ("Failed to parse Python response: " ++ e ++ ". Raw stdout: ").toList
            ++ stdout.toList ++ [] := by
      simp [string_toList_append]
    rw [hsplit]
    exact includesB_surround _ _ _
  · have hsplit :
        ("Failed to parse Python response: " ++ e ++ ". Raw stdout: " ++ stdout
            ++ ". Raw stderr: " ++ stderr).toList
          = ("Failed to parse Python response: " ++ e ++ ". Raw stdout: ").toList
            ++ stdout.toList ++ (". Raw stderr: " ++ stderr).toList := by
      simp [string_toList_append]
    rw [hsplit]
    exact includesB_surround _ _ _

theorem parse_failure_rejects_with_raw_output_witness :
    (∃ m, handleCloseStdin (fun _ => Except.error "SyntaxError" : String → Except String Unit)
        (fun _ => true) (fun _ => "") (some 0) "oops not json" "trace"
        = BridgeOutcome.reject m ∧ includesB "oops not json".toList m.toList = true) ∧
    (∀ r, handleCloseStdin (fun _ => Except.error "SyntaxError" : String → Except String Unit)
        (fun _ => true) (fun _ => "") (some 0) "oops not json" "trace"
        ≠ BridgeOutcome.resolve r) ∧
    (∃ m, handleCloseArgs (fun _ => Except.error "SyntaxError" : String → Except String Unit)
        (fun _ => true) (fun _ => "") (some 0) "oops not json" "trace"
        = BridgeOutcome.reject m ∧ includesB "oops not json".toList m.toList = true) ∧
    (∀ r, handleCloseArgs (fun _ => Except.error "SyntaxError" : String → Except String Unit)
        (fun _ => true) (fun _ => "") (some 0) "oops not json" "trace"
        ≠ BridgeOutcome.resolve r) :=
  parse_failure_rejects_with_raw_output (fun _ => Except.error "SyntaxError")
    (fun _ => true) (fun _ => "") "oops not json" "trace" "SyntaxError" rfl

/-- C10: `generateEmbedding` fails whenever the subprocess response,
despite reporting success, has an `embeddings` field that is missing, not
an array, or an empty array; otherwise it returns exactly the first
element of the `embeddings` array. -/
theorem generateEmbedding_validates_embeddings (response : EmbedResponse) :
    ((response.embeddings = EmbeddingsField.absent ∨
      response.embeddings = EmbeddingsField.nonArrayValue ∨
      response.embeddings = EmbeddingsField.array []) →
      generateEmbedding (Except.ok response)
        = Except.error "Failed to generate embeddings or received empty embeddings.") ∧
    (∀ first rest, response.embeddings = EmbeddingsField.array (first :: rest) →
      generateEmbedding (Except.ok response) = Except.ok first) := by
  constructor
  · intro h
    rcases h with h | h | h <;> simp [generateEmbedding, h]
  · intro first rest h
    simp [generateEmbedding, h]

theorem generateEmbedding_validates_embeddings_witness :
    generateEmbedding (Except.ok ⟨EmbeddingsField.array [[1, 2], [3]]⟩)
      = Except.ok [1, 2] ∧
    generateEmbedding (Except.ok ⟨EmbeddingsField.array []⟩)
      = Except.error "Failed to generate embeddings or received empty embeddings." :=
  ⟨(generateEmbedding_validates_embeddings ⟨EmbeddingsField.array [[1, 2], [3]]⟩).2
      [1, 2] [[3]] rfl,
   (generateEmbedding_validates_embeddings ⟨EmbeddingsField.array []⟩).1
      (Or.inr (Or.inr rfl))⟩

/-- An item shown by a previous successful search. -/
def sampleDisplayedItem : ContextItem :=
  ⟨"reference", "Old note", "", "old excerpt", "Distance: 2.00"⟩

/-- C5 counterexample: the claim "a failed search never replaces the
previously displayed list" is false for the note-context fetch: when the
embedding or query step fails, `fetchContextForNote` swallows the error
and returns `[]`, and `fetchContext` passes that empty list to
`updateContext`, clearing the previously displayed list. -/
theorem failed_fetch_clears_list_counterexample :
    (fetchContext ⟨[sampleDisplayedItem], false⟩ (Except.error "embedding failed")
        "note.md").items = [] ∧
    (fetchContext ⟨[sampleDisplayedItem], false⟩ (Except.error "embedding failed")
        "note.md").items ≠ [sampleDisplayedItem] := by
  constructor
  · rfl
  · intro h
    exact absurd h (by decide)

/-- C5 (amended): a failed free-text search (`searchQuery`) leaves the
previously displayed list unchanged and only clears the loading flag; a
failed note-context fetch (`fetchContext`) instead replaces the displayed
list with the empty list (and clears the loading flag). -/
theorem failed_search_state_behavior (state : UIState) (e notePath : String) :
    searchQuery state (Except.error e) = { state with loading := false } ∧
    fetchContext state (Except.error e) notePath = ⟨[], false⟩ :=
  ⟨rfl, rfl⟩

/-- C6: `reindexAllNotes` always runs the clear step first; the indexing
step runs only after a successful clear and directly after it; the
document-count refresh (which persists the new count and last-indexed
timestamp) runs only after successful indexing; and when the clear step
fails, the indexing step never executes and the persisted settings keep
their prior values. -/
theorem reindexAllNotes_ordering (settings : PluginSettings)
    (clearOutcome indexOutcome : Except String Unit)
    (countBridge : Except String (Option Nat)) (now : Nat) :
    ((reindexAllNotes settings clearOutcome indexOutcome countBridge now).2.head?
        = some ReindexStep.clearStep) ∧
    (ReindexStep.indexStep
        ∈ (reindexAllNotes settings clearOutcome indexOutcome countBridge now).2 →
      clearOutcome = Except.ok () ∧
      (reindexAllNotes settings clearOutcome indexOutcome countBridge now).2.take 2
        = [ReindexStep.clearStep, ReindexStep.indexStep]) ∧
    (ReindexStep.countRefreshStep
        ∈ (reindexAllNotes settings clearOutcome indexOutcome countBridge now).2 →
      indexOutcome = Except.ok () ∧
      (reindexAllNotes settings clearOutcome indexOutcome countBridge now).2
        = [ReindexStep.clearStep, ReindexStep.indexStep, ReindexStep.countRefreshStep] ∧
      (reindexAllNotes settings clearOutcome indexOutcome countBridge now).1
        = updateTotalDocumentsSetting countBridge now) ∧
    (∀ e, clearOutcome = Except.error e →
      ReindexStep.indexStep
        ∉ (reindexAllNotes settings clearOutcome indexOutcome countBridge now).2 ∧
      (reindexAllNotes settings clearOutcome indexOutcome countBridge now).1
        = settings) := by
  rcases clearOutcome with ec | uc <;> rcases indexOutcome with ei | ui <;>
    simp [reindexAllNotes]

theorem reindexAllNotes_ordering_witness :
    ReindexStep.indexStep
      ∉ (reindexAllNotes ⟨5, 7⟩ (Except.error "clear failed") (Except.ok ())
          (Except.ok (some 3)) 99).2 ∧
    (reindexAllNotes ⟨5, 7⟩ (Except.error "clear failed") (Except.ok ())
        (Except.ok (some 3)) 99).1 = ⟨5, 7⟩ :=
  (reindexAllNotes_ordering ⟨5, 7⟩ (Except.error "clear failed") (Except.ok ())
      (Except.ok (some 3)) 99).2.2.2 "clear failed" rfl

/-- Comparison definition following the spec's words only: the filename
"with any markdown extension stripped" — remove a trailing `".md"`
extension, leave other filenames untouched. -/
def stripMarkdownExtension (filename : String) : String :=
  if leadsWith ".md".toList.reverse filename.toList.reverse
  then String.mk (filename.toList.take (filename.toList.length - 3))
  else filename

/-- C7 counterexample: for a row whose filename is `"a.mdx.md"` (markdown
extension `".md"`) and whose heading is present but empty, the produced
title is `"ax.md"` — the code removes the first occurrence of the
substring `".md"` anywhere, not the extension — and the produced anchor is
`""` rather than `"#"` followed by the heading. -/
theorem title_anchor_counterexample :
    (mkContextItem "doc" ⟨none, some "a.mdx.md", some ""⟩ 2).note = "ax.md" ∧
    stripMarkdownExtension "a.mdx.md" = "a.mdx" ∧
    (mkContextItem "doc" ⟨none, some "a.mdx.md", some ""⟩ 2).note
      ≠ stripMarkdownExtension "a.mdx.md" ∧
    (mkContextItem "doc" ⟨none, some "a.mdx.md", some ""⟩ 2).anchor ≠ "#" ++ "" := by
  decide

/-- C7 (amended): every item produced by the mapper takes its title from
the row's filename with the first occurrence of the substring `".md"`
removed, with `"Unknown"` substituted when the filename is absent or the
removal result is empty; its anchor is `"#"` followed by the heading when
the heading is present and nonempty, and is empty otherwise. -/
theorem processChromaResults_title_anchor
    (results : ChromaResults) (currentNotePath : String) (item : ContextItem)
    (h : item ∈ processChromaResults results currentNotePath) :
    ∃ documents i, results.documents.bind List.head? = some documents ∧
      i < documents.length ∧
      (item.note =
        match (((results.metadatas.bind List.head?).getD []).getD i
            emptyMetadata).filename with
        | none => "Unknown"
        | some f =>
          if String.mk (dropFirstMatch ".md".toList f.toList) = "" then "Unknown"
          else String.mk (dropFirstMatch ".md".toList f.toList)) ∧
      (item.anchor =
        match (((results.metadatas.bind List.head?).getD []).getD i
            emptyMetadata).heading with
        | none => ""
        | some hd => if hd = "" then "" else "#" ++ hd) := by
  obtain ⟨documents, hdoc, i, hi, hne, heq⟩ :=
    mem_processChromaResults results currentNotePath item h
  refine ⟨documents, i, hdoc, hi, ?_, ?_⟩ <;> rw [heq] <;> rfl

theorem processChromaResults_title_anchor_witness :
    ∃ documents i, sampleResultsWithSelf.documents.bind List.head? = some documents ∧
      i < documents.length ∧
      (sampleKeptItem.note =
        match (((sampleResultsWithSelf.metadatas.bind List.head?).getD []).getD i
            emptyMetadata).filename with
        | none => "Unknown"
        | some f =>
          if String.mk (dropFirstMatch ".md".toList f.toList) = "" then "Unknown"
          else String.mk (dropFirstMatch ".md".toList f.toList)) ∧
      (sampleKeptItem.anchor =
        match (((sampleResultsWithSelf.metadatas.bind List.head?).getD []).getD i
            emptyMetadata).heading with
        | none => ""
        | some hd => if hd = "" then "" else "#" ++ hd) :=
  processChromaResults_title_anchor sampleResultsWithSelf "dir/self.MD" sampleKeptItem
    (by decide)

/-- C8: a free-text search whose input is empty or whitespace-only after
trimming triggers the input-error notice and spawns no subprocess —
neither the embedding script nor the query script. -/
theorem empty_query_no_subprocess (inputValue : String)
    (embedOutcome : Except String (List ℚ)) (h : jsTrim inputValue = "") :
    onSearchClick inputValue = SearchAction.notifyUser "Please enter a search query." ∧
    searchSubprocessScripts (onSearchClick inputValue) embedOutcome = [] := by
  have h1 : onSearchClick inputValue
      = SearchAction.notifyUser "Please enter a search query." := by
    unfold onSearchClick
    rw [if_pos h]
  refine ⟨h1, ?_⟩
  rw [h1]
  rfl

theorem empty_query_no_subprocess_witness :
    onSearchClick "  \t " = SearchAction.notifyUser "Please enter a search query." ∧
    searchSubprocessScripts (onSearchClick "  \t ") (Except.ok [1]) = [] :=
  empty_query_no_subprocess "  \t " (Except.ok [1]) (by decide)

end ContextFetcher
